import Mathlib

/-!
Verification development for the jira-helper verification workflow.

The definitions below are a shallow embedding of the verification engine:
the `POST /run` route handler of `routes/verify.js` (script loading, outcome
classification, pass/fail resolution against the remote tracker), the
`GET /scripts` listing handler, `JiraAPI.findCloseTransition` and
`JiraAPI.transitionIssue` of `utils/jiraApi.js`, and the settings
encryption round trip of `utils/config.js`.

JavaScript string operations are embedded through the underlying character
lists so that every definition evaluates by kernel reduction:
`s.toLowerCase()` becomes a character-wise `Char.toLower` map,
`s.startsWith(p)` a decidable list-prefix test, `s.includes(p)` a decidable
list-infix test, and `s.endsWith(p)` a decidable list-suffix test.
Remote tracker calls are embedded as explicit state passing over a
`RemoteIssue` value, with a `RemoteConfig` of injectable failures standing
for network errors raised by the axios layer; a failing call raises the
error without mutating the state.
-/

/-- Character-list embedding of JavaScript `s.toLowerCase()` (ASCII range,
which is all the close-keyword matching needs). -/
def strLower (s : String) : String := ⟨s.data.map Char.toLower⟩

/-- Character-list embedding of JavaScript `s.startsWith(p)`. -/
def strStartsWith (s p : String) : Bool := decide (p.data <+: s.data)

/-- Character-list embedding of JavaScript `s.endsWith(p)`. -/
def strEndsWith (s p : String) : Bool := decide (p.data <:+ s.data)

/-- Character-list embedding of JavaScript `s.includes(p)`. -/
def strContains (s p : String) : Bool := decide (p.data <:+: s.data)

/-- A comment on a remote issue, as listed by `GET /issue/{key}/comment`:
an identifier and a body. -/
structure Comment where
  id : Nat
  body : String
deriving Repr, DecidableEq

/-- A workflow transition as listed by `GET /issue/{key}/transitions`. -/
structure Transition where
  id : String
  name : String
deriving Repr, DecidableEq

/-- The remote state of one issue that the handler can observe and mutate:
its comment list, the next fresh comment identifier the tracker will assign,
the transitions the tracker offers, and the log of transitions applied so
far (transition id paired with the optional comment sent along, mirroring
the `update.comment` payload of `JiraAPI.transitionIssue`). -/
structure RemoteIssue where
  comments : List Comment
  nextId : Nat
  transitions : List Transition
  appliedTransitions : List (String × Option String)
deriving Repr, DecidableEq

/-- Failure injection for the remote calls made during resolution: each
field set to `some m` makes the corresponding `jiraApi` call throw with
message `m`, as an axios error would. -/
structure RemoteConfig where
  transitionsFail : Option String
  transitionFail : Option String
  addCommentFail : Option String
  getCommentsFail : Option String
  updateCommentFail : Option String
deriving Repr, DecidableEq

/-- The all-successful remote configuration: every tracker call succeeds. -/
def noFail : RemoteConfig :=
  { transitionsFail := none, transitionFail := none, addCommentFail := none,
    getCommentsFail := none, updateCommentFail := none }

/-- `jiraApi.getTransitions(issueKey)`: returns the issue's transitions, or
throws when so configured. -/
def getTransitionsOp (cfg : RemoteConfig) (st : RemoteIssue) :
    Except String (List Transition) :=
  match cfg.transitionsFail with
  | some m => .error m
  | none => .ok st.transitions

/-- `jiraApi.transitionIssue(issueKey, transitionId, comment)`: records the
applied transition together with its optional comment payload. -/
def transitionIssueOp (cfg : RemoteConfig) (tid : String) (comment : Option String)
    (st : RemoteIssue) : Except String RemoteIssue :=
  match cfg.transitionFail with
  | some m => .error m
  | none => .ok { st with appliedTransitions := st.appliedTransitions ++ [(tid, comment)] }

/-- `jiraApi.addComment(issueKey, body)`: appends a comment under a fresh
identifier. -/
def addCommentOp (cfg : RemoteConfig) (body : String) (st : RemoteIssue) :
    Except String RemoteIssue :=
  match cfg.addCommentFail with
  | some m => .error m
  | none => .ok { st with
      comments := st.comments ++ [⟨st.nextId, body⟩]
      nextId := st.nextId + 1 }

/-- `jiraApi.getComments(issueKey)`: returns the issue's comments. -/
def getCommentsOp (cfg : RemoteConfig) (st : RemoteIssue) :
    Except String (List Comment) :=
  match cfg.getCommentsFail with
  | some m => .error m
  | none => .ok st.comments

/-- `jiraApi.updateComment(issueKey, commentId, body)`: replaces the body of
the comment carrying the given identifier. -/
def updateCommentOp (cfg : RemoteConfig) (cid : Nat) (body : String)
    (st : RemoteIssue) : Except String RemoteIssue :=
  match cfg.updateCommentFail with
  | some m => .error m
  | none => .ok { st with
      comments := st.comments.map
        (fun c => if c.id = cid then { c with body := body } else c) }

/-- The close-keyword list of `JiraAPI.findCloseTransition`. -/
def closeKeywords : List String := ["close", "resolve", "done", "complete", "finish"]

/-- The per-transition test of `JiraAPI.findCloseTransition`: the lowercased
name contains some close keyword. -/
def isCloseName (name : String) : Bool :=
  closeKeywords.any (fun k => strContains (strLower name) k)

/-- The selection loop of `JiraAPI.findCloseTransition`: the first transition,
in the tracker's listing order, whose name passes `isCloseName`; `none` when
no transition does. -/
def findCloseTransition (transitions : List Transition) : Option Transition :=
  transitions.find? (fun t => isCloseName t.name)

/-- Behavior of the verification script named by the request, covering the
four cases of the `try` block at lines 66-81 of the `/run` handler: the
module fails to load (`require` throws), it loads without exporting a
`verify` function, its `verify` throws, or `verify` returns a string. -/
inductive ScriptBehavior where
  | loadError (msg : String)
  | noVerify
  | verifyThrows (msg : String)
  | verifyReturns (value : String)
deriving Repr, DecidableEq

/-- The value `verificationResult` holds after the `try`/`catch` of lines
66-81: a thrown error (including the handler's own
`Script does not export a verify function`) is caught and replaced by
`"Script error: " + error.message`; a returned string is kept verbatim. -/
def runScript : ScriptBehavior → String
  | .loadError msg => "Script error: " ++ msg
  | .noVerify => "Script error: Script does not export a verify function"
  | .verifyThrows msg => "Script error: " ++ msg
  | .verifyReturns value => value

/-- Line 84 of the `/run` handler:
`verificationResult === 'ok' || verificationResult === 'OK'`. -/
def isSuccess (verificationResult : String) : Bool :=
  verificationResult == "ok" || verificationResult == "OK"

/-- The tagged-comment test of line 130 (`comment.body.startsWith(commentPrefix)`),
also used by the history route: the body starts with the comment tag. -/
def taggedBy (tag : String) (c : Comment) : Bool := strStartsWith c.body tag

/-- The two-variant outcome the spec calls `VerificationOutcome`. -/
inductive Outcome where
  | Pass
  | Fail (reason : String)
deriving Repr, DecidableEq

/-- Outcome classification: the handler branches on `isSuccess` and, on the
failing branch, uses the raw returned string verbatim as the reason. -/
def classify (verificationResult : String) : Outcome :=
  if isSuccess verificationResult then .Pass else .Fail verificationResult

/-- The JSON body `res.json(...)` of the `/run` handler: `success`,
optional `action`, `message`, the raw `verificationResult`, and the
optional `transition` name. -/
structure RunResponse where
  success : Bool
  action : Option String
  message : String
  verificationResult : String
  transition : Option String
deriving Repr, DecidableEq

/-- What the route sends back: an HTTP error status with an error string, or
a JSON body. -/
inductive HandlerResult where
  | httpError (status : Nat) (error : String)
  | json (resp : RunResponse)
deriving Repr, DecidableEq

/-- The `try` block of the Pass branch (lines 88-115): find a close-capable
transition; apply it with the auto-close comment, or add the
no-transition comment. -/
def passAttempt (cfg : RemoteConfig) (tag verificationResult : String)
    (st : RemoteIssue) : Except String (RunResponse × RemoteIssue) :=
  match getTransitionsOp cfg st with
  | .error m => .error m
  | .ok ts =>
    match findCloseTransition ts with
    | some t =>
      match transitionIssueOp cfg t.id
          (some (tag ++ " Verification passed. Issue auto-closed.")) st with
      | .error m => .error m
      | .ok st2 =>
        .ok ({ success := true, action := some "closed",
               message := "Verification passed. Issue has been closed.",
               verificationResult := verificationResult,
               transition := some t.name }, st2)
    | none =>
      match addCommentOp cfg
          (tag ++ " Verification passed, but no close transition available.") st with
      | .error m => .error m
      | .ok st2 =>
        .ok ({ success := true, action := some "commented",
               message := "Verification passed, but issue could not be auto-closed. Comment added.",
               verificationResult := verificationResult,
               transition := none }, st2)

/-- The Pass branch with its `catch` (lines 86-124): a remote error degrades
to the `action: 'verified'` response and leaves the issue as it was. -/
def passBranch (cfg : RemoteConfig) (tag verificationResult : String)
    (st : RemoteIssue) : RunResponse × RemoteIssue :=
  match passAttempt cfg tag verificationResult st with
  | .ok res => res
  | .error m =>
    ({ success := true, action := some "verified",
       message := "Verification passed, but failed to update issue: " ++ m,
       verificationResult := verificationResult,
       transition := none }, st)

/-- The `try` block of the Fail branch (lines 127-148): list the comments,
find the first whose body starts with the tag, and update it in place, or
add a fresh tagged comment. -/
def failAttempt (cfg : RemoteConfig) (tag verificationResult : String)
    (st : RemoteIssue) : Except String (RunResponse × RemoteIssue) :=
  match getCommentsOp cfg st with
  | .error m => .error m
  | .ok comments =>
    let commentText := tag ++ " " ++ verificationResult
    let updated : Except String RemoteIssue :=
      match comments.find? (taggedBy tag) with
      | some existing => updateCommentOp cfg existing.id commentText st
      | none => addCommentOp cfg commentText st
    match updated with
    | .error m => .error m
    | .ok st2 =>
      .ok ({ success := true, action := some "commented",
             message := "Verification failed. Comment added to issue.",
             verificationResult := verificationResult,
             transition := none }, st2)

/-- The Fail branch with its `catch` (lines 126-156): a remote error yields
the `success: false` response and leaves the issue as it was. -/
def failBranch (cfg : RemoteConfig) (tag verificationResult : String)
    (st : RemoteIssue) : RunResponse × RemoteIssue :=
  match failAttempt cfg tag verificationResult st with
  | .ok res => res
  | .error m =>
    ({ success := false, action := none,
       message := "Verification failed and could not update issue: " ++ m,
       verificationResult := verificationResult,
       transition := none }, st)

/-- The whole `POST /run` handler (lines 42-162): parameter presence check,
issue existence check (`issueLookup` is the result of `jiraApi.getIssue`),
script file existence check (`fs.access`), script execution, outcome
classification, then the Pass or Fail resolution branch. The returned pair
is the response together with the final remote state of the issue. -/
def runHandler (cfg : RemoteConfig) (issueLookup : Except String Unit)
    (scriptExists : Bool) (script : ScriptBehavior)
    (issueKey scriptId tag : String) (st : RemoteIssue) :
    HandlerResult × RemoteIssue :=
  if issueKey == "" || scriptId == "" then
    (.httpError 400 "Issue key and script ID are required", st)
  else
    match issueLookup with
    | .error m => (.httpError 404 ("Issue not found: " ++ m), st)
    | .ok _ =>
      if !scriptExists then
        (.httpError 404 "Verification script not found", st)
      else
        let verificationResult := runScript script
        if isSuccess verificationResult then
          let res := passBranch cfg tag verificationResult st
          (.json res.1, res.2)
        else
          let res := failBranch cfg tag verificationResult st
          (.json res.1, res.2)

/-- One complete Fail-branch resolution against a healthy tracker: the state
after `failBranch` with every remote call succeeding. -/
def failRun (tag reason : String) (st : RemoteIssue) : RemoteIssue :=
  (failBranch noFail tag reason st).2

/-- Well-formedness of a remote issue: comment identifiers are pairwise
distinct and below the tracker's next fresh identifier. -/
def RemoteIssue.wf (st : RemoteIssue) : Prop :=
  (st.comments.map Comment.id).Nodup ∧ ∀ c ∈ st.comments, c.id < st.nextId

/-- Metadata exported by a verification-script module, as read by the
`GET /scripts` handler; `none` models an absent (`undefined`) export. -/
structure ScriptMeta where
  name : Option String
  description : Option String
  parameters : Option (List String)
deriving Repr, DecidableEq

/-- One directory entry of the scripts directory: its file name and the
result of `require`-ing it (`error` models a throwing load). -/
structure ScriptFile where
  filename : String
  loadResult : Except String ScriptMeta
deriving Repr

/-- The entry pushed onto `scripts` for a cleanly loaded unit. -/
structure ScriptDef where
  id : String
  name : String
  description : String
  parameters : List String
deriving Repr, DecidableEq

/-- JavaScript `v || d` on an optional string: an absent or empty string
falls back to the default. -/
def jsOr (v : Option String) (d : String) : String :=
  match v with
  | some s => if s == "" then d else s
  | none => d

/-- `path.basename(file, '.js')` for a plain file name ending in `.js`:
drop the three-character extension. -/
def stripJs (s : String) : String := ⟨s.data.take (s.data.length - 3)⟩

/-- The object literal pushed by the `GET /scripts` loop for a module that
loaded cleanly. -/
def mkDef (filename : String) (m : ScriptMeta) : ScriptDef :=
  { id := stripJs filename,
    name := jsOr m.name (stripJs filename),
    description := jsOr m.description "No description available",
    parameters := m.parameters.getD [] }

/-- One iteration of the `GET /scripts` loop: skip names not ending in
`.js`, skip units whose load throws, and otherwise produce the definition
entry. -/
def loadEntry (f : ScriptFile) : Option ScriptDef :=
  if strEndsWith f.filename ".js" then
    match f.loadResult with
    | .ok m => some (mkDef f.filename m)
    | .error _ => none
  else none

/-- The `GET /scripts` handler body: fold the loop over the directory
listing, in directory order. -/
def listScripts (files : List ScriptFile) : List ScriptDef :=
  files.filterMap loadEntry

/-- The settings record persisted by `utils/config.js`. -/
structure Settings where
  jiraUrl : String
  username : String
  apiToken : String
  configured : Bool
deriving Repr, DecidableEq

/-- The default settings returned when no settings file exists. -/
def defaultSettings : Settings :=
  { jiraUrl := "", username := "", apiToken := "", configured := false }

/-- `saveSettings`: the record written to `settings.json`, with the API
token replaced by its encryption when truthy (non-empty). The cipher `enc`
stands for `CryptoJS.AES.encrypt` of the external crypto-js library. -/
def saveSettings (enc : String → String) (s : Settings) : Settings :=
  if s.apiToken == "" then s else { s with apiToken := enc s.apiToken }

/-- `getSettings`: read the persisted record (`none` models a missing
file), decrypting a truthy stored token with the cipher inverse `dec`
standing for `CryptoJS.AES.decrypt`. -/
def getSettings (dec : String → String) (file : Option Settings) : Settings :=
  match file with
  | none => defaultSettings
  | some st => if st.apiToken == "" then st else { st with apiToken := dec st.apiToken }

/-! ## Helper lemmas -/

/-- The comment written by the Fail branch always carries the tag as a
prefix. -/
theorem strStartsWith_tag_space (tag r : String) :
    strStartsWith (tag ++ " " ++ r) tag = true := by
  simp [strStartsWith, String.data_append]

/-- The prefix `"Script error: "` makes the contained error string distinct
from both success literals, whatever the thrown message was. -/
theorem isSuccess_script_error (msg : String) :
    isSuccess ("Script error: " ++ msg) = false := by
  have h14 : ("Script error: " : String).length = 14 := rfl
  have hok : ("ok" : String).length = 2 := rfl
  have hOK : ("OK" : String).length = 2 := rfl
  simp only [isSuccess, Bool.or_eq_false_iff, beq_eq_false_iff_ne, ne_eq]
  constructor <;> intro h <;>
    (have hlen := congrArg String.length h; rw [String.length_append] at hlen; omega)

/-- A list whose filtering is the singleton `[c]` has `c` as its first
match. -/
theorem find?_of_filter_singleton {α : Type} (p : α → Bool) (l : List α) (c : α)
    (h : l.filter p = [c]) : l.find? p = some c := by
  induction l with
  | nil => simp at h
  | cons a l ih =>
    by_cases hpa : p a = true
    · rw [List.filter_cons_of_pos hpa] at h
      rw [List.find?_cons_of_pos _ hpa]
      exact congrArg some (List.head_eq_of_cons_eq h)
    · rw [List.filter_cons_of_neg hpa] at h
      rw [List.find?_cons_of_neg _ hpa]
      exact ih h

/-! ## C1: exact-match outcome classification -/

/-- C1: the Runner classifies a returned string as `Pass` exactly when it is
the literal `"ok"` or `"OK"` (case-sensitive, untrimmed), and every other
string becomes `Fail` carrying that literal string as the reason. -/
theorem classify_exact_match (s : String) :
    (classify s = Outcome.Pass ↔ s = "ok" ∨ s = "OK") ∧
    (s ≠ "ok" → s ≠ "OK" → classify s = Outcome.Fail s) := by
  constructor
  · constructor
    · intro h
      by_cases h1 : s = "ok"
      · exact Or.inl h1
      · by_cases h2 : s = "OK"
        · exact Or.inr h2
        · simp [classify, isSuccess, h1, h2] at h
    · rintro (rfl | rfl) <;> rfl
  · intro h1 h2
    simp [classify, isSuccess, h1, h2]

/-- C1 witness: the classification at the six strings the spec names. -/
theorem classify_exact_match_cases :
    classify "ok" = Outcome.Pass ∧ classify "OK" = Outcome.Pass ∧
    classify "Ok" = Outcome.Fail "Ok" ∧ classify "success" = Outcome.Fail "success" ∧
    classify "" = Outcome.Fail "" ∧ classify "ok " = Outcome.Fail "ok " :=
  ⟨(classify_exact_match "ok").1.mpr (Or.inl rfl),
   (classify_exact_match "OK").1.mpr (Or.inr rfl),
   (classify_exact_match "Ok").2 (by decide) (by decide),
   (classify_exact_match "success").2 (by decide) (by decide),
   (classify_exact_match "").2 (by decide) (by decide),
   (classify_exact_match "ok ").2 (by decide) (by decide)⟩

/-! ## C4: close-transition selection -/

/-- C4: close-transition selection returns the first transition, in the
tracker's own listing order, whose lowercased name contains one of the
keywords `close`, `resolve`, `done`, `complete`, `finish` (the `isCloseName`
test); when no transition's name contains any keyword it returns `none`. -/
theorem findCloseTransition_spec (ts : List Transition) :
    (∀ t, findCloseTransition ts = some t →
      isCloseName t.name = true ∧
      ∃ i : Nat, ts[i]? = some t ∧
        ∀ j, j < i → ∀ u, ts[j]? = some u → isCloseName u.name = false) ∧
    (findCloseTransition ts = none ↔ ∀ t ∈ ts, isCloseName t.name = false) := by
  constructor
  · induction ts with
    | nil => intro t h; simp [findCloseTransition] at h
    | cons a ts ih =>
      intro t h
      by_cases hpa : isCloseName a.name = true
      · rw [findCloseTransition,
          @List.find?_cons_of_pos _ (fun t => isCloseName t.name) a ts hpa] at h
        obtain rfl : a = t := Option.some.inj h
        exact ⟨hpa, 0, by simp, by omega⟩
      · rw [findCloseTransition,
          @List.find?_cons_of_neg _ (fun t => isCloseName t.name) a ts hpa] at h
        obtain ⟨hcl, i, hi, hbefore⟩ := ih t h
        refine ⟨hcl, i + 1, by simpa using hi, ?_⟩
        intro j hj u hu
        cases j with
        | zero =>
          simp at hu
          rw [← hu]
          exact Bool.eq_false_iff.mpr hpa
        | succ k =>
          exact hbefore k (by omega) u (by simpa using hu)
  · constructor
    · intro h t ht
      have := List.find?_eq_none.mp h t ht
      simpa using this
    · intro h
      apply List.find?_eq_none.mpr
      intro x hx
      simp [h x hx]

/-- C4 witness: with transitions `Start Progress` then `Close Issue`, the
selection picks `Close Issue` (matched case-insensitively on `close`) and it
is indeed close-named; with only `Start Progress` and `Reopen`, it returns
`none`. -/
theorem findCloseTransition_spec_cases :
    isCloseName (Transition.mk "21" "Close Issue").name = true ∧
    findCloseTransition [⟨"11", "Start Progress"⟩, ⟨"21", "Close Issue"⟩] =
      some ⟨"21", "Close Issue"⟩ ∧
    findCloseTransition [⟨"11", "Start Progress"⟩, ⟨"31", "Reopen"⟩] = none :=
  ⟨((findCloseTransition_spec [⟨"11", "Start Progress"⟩, ⟨"21", "Close Issue"⟩]).1
      ⟨"21", "Close Issue"⟩ (by decide)).1,
   by decide,
   (findCloseTransition_spec [⟨"11", "Start Progress"⟩, ⟨"31", "Reopen"⟩]).2.mpr
     (by decide)⟩

/-! ## C6: Pass-branch resolution -/

/-- C6: on a Pass outcome with a healthy tracker, a found close-capable
transition is applied with the closing comment
`tag ++ " Verification passed. Issue auto-closed."` and the response is
the `closed` resolution (the spec's `Closed`); with no close-capable
transition, exactly one plain comment
`tag ++ " Verification passed, but no close transition available."` is
added and the response is the pass-side `commented` resolution (the spec's
`CommentedPassNoTransition`). -/
theorem passBranch_resolution (tag r : String) (st : RemoteIssue) :
    (∀ t, findCloseTransition st.transitions = some t →
      passBranch noFail tag r st =
        ({ success := true, action := some "closed",
           message := "Verification passed. Issue has been closed.",
           verificationResult := r, transition := some t.name },
         { st with appliedTransitions := st.appliedTransitions ++
             [(t.id, some (tag ++ " Verification passed. Issue auto-closed."))] })) ∧
    (findCloseTransition st.transitions = none →
      passBranch noFail tag r st =
        ({ success := true, action := some "commented",
           message := "Verification passed, but issue could not be auto-closed. Comment added.",
           verificationResult := r, transition := none },
         { st with
             comments := st.comments ++
               [⟨st.nextId, tag ++ " Verification passed, but no close transition available."⟩]
             nextId := st.nextId + 1 })) := by
  constructor
  · intro t h
    simp [passBranch, passAttempt, getTransitionsOp, noFail, h, transitionIssueOp]
  · intro h
    simp [passBranch, passAttempt, getTransitionsOp, noFail, h, addCommentOp]

/-- C6 witness: the two resolutions at concrete trackers, one exposing
`Close Issue` and one exposing only `Start Progress` and `Reopen`. -/
theorem passBranch_resolution_cases :
    passBranch noFail "[Verification]" "ok"
        { comments := [], nextId := 0,
          transitions := [⟨"11", "Start Progress"⟩, ⟨"21", "Close Issue"⟩],
          appliedTransitions := [] } =
      ({ success := true, action := some "closed",
         message := "Verification passed. Issue has been closed.",
         verificationResult := "ok", transition := some "Close Issue" },
       { comments := [], nextId := 0,
         transitions := [⟨"11", "Start Progress"⟩, ⟨"21", "Close Issue"⟩],
         appliedTransitions :=
           [("21", some "[Verification] Verification passed. Issue auto-closed.")] }) ∧
    passBranch noFail "[Verification]" "ok"
        { comments := [], nextId := 0,
          transitions := [⟨"11", "Start Progress"⟩, ⟨"31", "Reopen"⟩],
          appliedTransitions := [] } =
      ({ success := true, action := some "commented",
         message := "Verification passed, but issue could not be auto-closed. Comment added.",
         verificationResult := "ok", transition := none },
       { comments :=
           [⟨0, "[Verification] Verification passed, but no close transition available."⟩],
         nextId := 1, transitions := [⟨"11", "Start Progress"⟩, ⟨"31", "Reopen"⟩],
         appliedTransitions := [] }) :=
  ⟨(passBranch_resolution "[Verification]" "ok" _).1 ⟨"21", "Close Issue"⟩ (by decide),
   (passBranch_resolution "[Verification]" "ok" _).2 (by decide)⟩

/-! ## C7: remote update failure containment -/

/-- C7: when the remote update raised during resolution, the handler still
returns a normal JSON result: on the Pass branch the degraded `verified`
resolution (the spec's `VerifiedNoUpdate`) with `success` still true, and on
the Fail branch the `success: false` resolution (the spec's `UpdateFailed`);
both carry the underlying error message and keep the verification's own
result string. -/
theorem remote_failure_contained (cfg : RemoteConfig)
    (issueKey scriptId tag m : String) (script : ScriptBehavior)
    (st : RemoteIssue) (hk : issueKey ≠ "") (hs : scriptId ≠ "") :
    (isSuccess (runScript script) = true →
      passAttempt cfg tag (runScript script) st = .error m →
      runHandler cfg (.ok ()) true script issueKey scriptId tag st =
        (.json { success := true, action := some "verified",
                 message := "Verification passed, but failed to update issue: " ++ m,
                 verificationResult := runScript script, transition := none }, st)) ∧
    (isSuccess (runScript script) = false →
      failAttempt cfg tag (runScript script) st = .error m →
      runHandler cfg (.ok ()) true script issueKey scriptId tag st =
        (.json { success := false, action := none,
                 message := "Verification failed and could not update issue: " ++ m,
                 verificationResult := runScript script, transition := none }, st)) := by
  constructor
  · intro h1 h2
    simp [runHandler, hk, hs, h1, passBranch, h2]
  · intro h1 h2
    simp [runHandler, hk, hs, h1, failBranch, h2]

/-- C7 witness: a tracker whose transition call throws `network down` during
a passing run, and one whose add-comment call throws during a failing run. -/
theorem remote_failure_contained_cases :
    runHandler { noFail with transitionFail := some "network down" } (.ok ()) true
        (.verifyReturns "ok") "PROJ-1" "sample-test" "[Verification]"
        { comments := [], nextId := 0, transitions := [⟨"21", "Close Issue"⟩],
          appliedTransitions := [] } =
      (.json { success := true, action := some "verified",
               message := "Verification passed, but failed to update issue: network down",
               verificationResult := "ok", transition := none },
       { comments := [], nextId := 0, transitions := [⟨"21", "Close Issue"⟩],
         appliedTransitions := [] }) ∧
    runHandler { noFail with addCommentFail := some "network down" } (.ok ()) true
        (.verifyReturns "bad output") "PROJ-1" "sample-test" "[Verification]"
        { comments := [], nextId := 0, transitions := [], appliedTransitions := [] } =
      (.json { success := false, action := none,
               message := "Verification failed and could not update issue: network down",
               verificationResult := "bad output", transition := none },
       { comments := [], nextId := 0, transitions := [], appliedTransitions := [] }) :=
  ⟨(remote_failure_contained { noFail with transitionFail := some "network down" }
      "PROJ-1" "sample-test" "[Verification]" "network down" (.verifyReturns "ok") _
      (by decide) (by decide)).1 (by decide) rfl,
   (remote_failure_contained { noFail with addCommentFail := some "network down" }
      "PROJ-1" "sample-test" "[Verification]" "network down" (.verifyReturns "bad output") _
      (by decide) (by decide)).2 (by decide) rfl⟩

/-! ## C8: request-level errors stop the run -/

/-- C8: an issue lookup failure yields the 404 `Issue not found` response
and a missing script file yields the 404 `Verification script not found`
response; in both cases the remote issue state is returned unchanged (no
comment, no transition) and the result does not depend on the script's
behavior, so the check is never executed. -/
theorem request_level_errors (cfg : RemoteConfig)
    (m issueKey scriptId tag : String) (scriptExists : Bool)
    (script : ScriptBehavior) (st : RemoteIssue)
    (hk : issueKey ≠ "") (hs : scriptId ≠ "") :
    runHandler cfg (.error m) scriptExists script issueKey scriptId tag st =
      (.httpError 404 ("Issue not found: " ++ m), st) ∧
    runHandler cfg (.ok ()) false script issueKey scriptId tag st =
      (.httpError 404 "Verification script not found", st) := by
  constructor
  · simp [runHandler, hk, hs]
  · simp [runHandler, hk, hs]

/-- C8 witness: concrete missing issue and missing script, with a script
that would otherwise pass; the state comes back exactly as it went in. -/
theorem request_level_errors_cases :
    runHandler noFail (.error "Issue does not exist") true (.verifyReturns "ok")
        "PROJ-404" "sample-test" "[Verification]"
        { comments := [], nextId := 0, transitions := [⟨"21", "Close Issue"⟩],
          appliedTransitions := [] } =
      (.httpError 404 "Issue not found: Issue does not exist",
       { comments := [], nextId := 0, transitions := [⟨"21", "Close Issue"⟩],
         appliedTransitions := [] }) ∧
    runHandler noFail (.ok ()) false (.verifyReturns "ok")
        "PROJ-1" "no-such-script" "[Verification]"
        { comments := [], nextId := 0, transitions := [⟨"21", "Close Issue"⟩],
          appliedTransitions := [] } =
      (.httpError 404 "Verification script not found",
       { comments := [], nextId := 0, transitions := [⟨"21", "Close Issue"⟩],
         appliedTransitions := [] }) :=
  ⟨(request_level_errors noFail "Issue does not exist" "PROJ-404" "sample-test"
      "[Verification]" true (.verifyReturns "ok") _ (by decide) (by decide)).1,
   (request_level_errors noFail "" "PROJ-1" "no-such-script"
      "[Verification]" false (.verifyReturns "ok") _ (by decide) (by decide)).2⟩

/-! ## C2: check crash containment -/

/-- A successful Fail-branch attempt always produces the `commented`
response that echoes the verification result it was given. -/
theorem failAttempt_ok_resp (cfg : RemoteConfig) (tag r : String) (st : RemoteIssue)
    (res : RunResponse × RemoteIssue) (h : failAttempt cfg tag r st = .ok res) :
    res.1.verificationResult = r := by
  unfold failAttempt at h
  rcases hg : cfg.getCommentsFail with _ | m
  all_goals simp only [getCommentsOp, hg] at h
  · rcases hf : st.comments.find? (taggedBy tag) with _ | c
    all_goals simp only [hf] at h
    · rcases ha : cfg.addCommentFail with _ | m2
      all_goals simp only [addCommentOp, ha] at h
      · obtain rfl := Except.ok.inj h
        rfl
      · simp at h
    · rcases hu : cfg.updateCommentFail with _ | m2
      all_goals simp only [updateCommentOp, hu] at h
      · obtain rfl := Except.ok.inj h
        rfl
      · simp at h
  · simp at h

/-- Whatever the tracker does, the Fail-branch response echoes the
verification result it was given. -/
theorem failBranch_keeps_result (cfg : RemoteConfig) (tag r : String)
    (st : RemoteIssue) : (failBranch cfg tag r st).1.verificationResult = r := by
  unfold failBranch
  split
  · rename_i res heq
    exact failAttempt_ok_resp cfg tag r st res heq
  · rfl

/-- C2: a check whose `verify` raises is contained: the run completes, the
outcome is `Fail("Script error: " ++ message)`, and the caller receives a
normal JSON resolution (the Fail branch of the handler) that still carries
that reason, for every tracker behavior. -/
theorem script_error_contained (cfg : RemoteConfig)
    (msg issueKey scriptId tag : String) (st : RemoteIssue)
    (hk : issueKey ≠ "") (hs : scriptId ≠ "") :
    runScript (.verifyThrows msg) = "Script error: " ++ msg ∧
    classify (runScript (.verifyThrows msg)) =
      Outcome.Fail ("Script error: " ++ msg) ∧
    runHandler cfg (.ok ()) true (.verifyThrows msg) issueKey scriptId tag st =
      (.json (failBranch cfg tag ("Script error: " ++ msg) st).1,
       (failBranch cfg tag ("Script error: " ++ msg) st).2) ∧
    (failBranch cfg tag ("Script error: " ++ msg) st).1.verificationResult =
      "Script error: " ++ msg := by
  refine ⟨rfl, ?_, ?_, failBranch_keeps_result cfg tag _ st⟩
  · simp [classify, runScript, isSuccess_script_error]
  · simp [runHandler, hk, hs, runScript, isSuccess_script_error]

/-- C2 witness: a check throwing `boom` on an issue with no prior comments
and a healthy tracker: the caller gets the commented Fail resolution with
reason `Script error: boom`. -/
theorem script_error_contained_cases :
    runHandler noFail (.ok ()) true (.verifyThrows "boom")
        "PROJ-1" "sample-test" "[Verification]"
        { comments := [], nextId := 0, transitions := [], appliedTransitions := [] } =
      (.json (failBranch noFail "[Verification]" "Script error: boom"
          { comments := [], nextId := 0, transitions := [], appliedTransitions := [] }).1,
       (failBranch noFail "[Verification]" "Script error: boom"
          { comments := [], nextId := 0, transitions := [], appliedTransitions := [] }).2) ∧
    classify (runScript (.verifyThrows "boom")) =
      Outcome.Fail ("Script error: " ++ "boom") :=
  ⟨(script_error_contained noFail "boom" "PROJ-1" "sample-test" "[Verification]" _
      (by decide) (by decide)).2.2.1,
   (script_error_contained noFail "boom" "PROJ-1" "sample-test" "[Verification]"
      { comments := [], nextId := 0, transitions := [], appliedTransitions := [] }
      (by decide) (by decide)).2.1⟩

/-! ## C3: unit without a verify entry point -/

/-- C3 counterexample: a loaded unit without a `verify` function is not
reported as a request-level load error. At a concrete input the handler
answers with a normal JSON `commented` resolution and mutates the remote
issue (a tagged comment is created), so the run did start and a remote
mutation did occur, contradicting the claim. -/
theorem noVerify_counterexample :
    runHandler noFail (.ok ()) true .noVerify "PROJ-1" "build-check" "[Verification]"
        { comments := [], nextId := 0, transitions := [], appliedTransitions := [] } =
      (.json { success := true, action := some "commented",
               message := "Verification failed. Comment added to issue.",
               verificationResult :=
                 "Script error: Script does not export a verify function",
               transition := none },
       { comments :=
           [⟨0, "[Verification] Script error: Script does not export a verify function"⟩],
         nextId := 1, transitions := [], appliedTransitions := [] }) ∧
    (runHandler noFail (.ok ()) true .noVerify "PROJ-1" "build-check" "[Verification]"
        { comments := [], nextId := 0, transitions := [],
          appliedTransitions := [] }).2.comments ≠ [] := by
  constructor
  · rfl
  · decide

/-- C3 amended: a unit that loads but does not expose an executable `verify`
entry point is caught by the in-run `try`/`catch`, degrades to the outcome
`Fail("Script error: Script does not export a verify function")`, and the
run proceeds on the Fail resolution branch (so the tagged comment is
created or updated); it is not a request-level load error. -/
theorem noVerify_degrades_to_fail (cfg : RemoteConfig)
    (issueKey scriptId tag : String) (st : RemoteIssue)
    (hk : issueKey ≠ "") (hs : scriptId ≠ "") :
    runScript .noVerify = "Script error: Script does not export a verify function" ∧
    classify (runScript .noVerify) =
      Outcome.Fail "Script error: Script does not export a verify function" ∧
    runHandler cfg (.ok ()) true .noVerify issueKey scriptId tag st =
      (.json (failBranch cfg tag
          "Script error: Script does not export a verify function" st).1,
       (failBranch cfg tag
          "Script error: Script does not export a verify function" st).2) := by
  refine ⟨rfl, by decide, ?_⟩
  have hfail :
      isSuccess "Script error: Script does not export a verify function" = false := by
    decide
  simp [runHandler, hk, hs, runScript, hfail]

/-- C3 amended witness: the concrete no-verify run from the counterexample,
reached through the amended theorem. -/
theorem noVerify_degrades_to_fail_cases :
    runHandler noFail (.ok ()) true .noVerify "PROJ-9" "build-check" "[Verification]"
        { comments := [], nextId := 5, transitions := [], appliedTransitions := [] } =
      (.json (failBranch noFail "[Verification]"
          "Script error: Script does not export a verify function"
          { comments := [], nextId := 5, transitions := [],
            appliedTransitions := [] }).1,
       (failBranch noFail "[Verification]"
          "Script error: Script does not export a verify function"
          { comments := [], nextId := 5, transitions := [],
            appliedTransitions := [] }).2) :=
  (noVerify_degrades_to_fail noFail "PROJ-9" "build-check" "[Verification]" _
    (by decide) (by decide)).2.2

/-! ## C9: listing survives partial load failure -/

/-- Characterization of one `GET /scripts` loop iteration: it produces an
entry exactly for a `.js` file whose load succeeded. -/
theorem loadEntry_eq_some (f : ScriptFile) (d : ScriptDef) :
    loadEntry f = some d ↔
      strEndsWith f.filename ".js" = true ∧
      ∃ m, f.loadResult = .ok m ∧ d = mkDef f.filename m := by
  unfold loadEntry
  cases hend : strEndsWith f.filename ".js" with
  | false => simp [hend]
  | true =>
    cases hl : f.loadResult with
    | error e => simp [hl]
    | ok m =>
      simp [hl, eq_comm]

/-- C9: enumerating the scripts never raises and returns exactly the
definitions of units that loaded cleanly: membership is characterized by a
clean `.js` load, units whose load throws contribute nothing to the list,
and with three `.js` units of which one fails to load the listing is the
two surviving definitions, in directory order. -/
theorem listScripts_partial_failure (fs : List ScriptFile) :
    (∀ d, d ∈ listScripts fs ↔
      ∃ f ∈ fs, strEndsWith f.filename ".js" = true ∧
        ∃ m, f.loadResult = .ok m ∧ d = mkDef f.filename m) ∧
    listScripts fs = listScripts (fs.filter (fun f => f.loadResult.toOption.isSome)) ∧
    (∀ (a c : String) (m1 m3 : ScriptMeta) (err : String),
      strEndsWith a ".js" = true → strEndsWith c ".js" = true →
      listScripts [⟨a, .ok m1⟩, ⟨"broken.js", .error err⟩, ⟨c, .ok m3⟩] =
        [mkDef a m1, mkDef c m3]) := by
  refine ⟨?_, ?_, ?_⟩
  · intro d
    simp only [listScripts, List.mem_filterMap]
    constructor
    · rintro ⟨f, hf, hload⟩
      exact ⟨f, hf, (loadEntry_eq_some f d).mp hload⟩
    · rintro ⟨f, hf, h1, m, h2, h3⟩
      exact ⟨f, hf, (loadEntry_eq_some f d).mpr ⟨h1, m, h2, h3⟩⟩
  · induction fs with
    | nil => rfl
    | cons f fs ih =>
      rcases hl : f.loadResult with e | m
      · have hnone : loadEntry f = none := by
          unfold loadEntry
          rw [hl]
          split <;> rfl
        have hdrop : f.loadResult.toOption.isSome = false := by
          rw [hl]; rfl
        simp only [listScripts] at ih ⊢
        simp [List.filterMap_cons, hnone, List.filter_cons, hdrop, ih]
      · have hkeep : f.loadResult.toOption.isSome = true := by
          rw [hl]; rfl
        simp only [listScripts] at ih ⊢
        simp [List.filterMap_cons, List.filter_cons, hkeep, ih]
  · intro a c m1 m3 err ha hc
    have hb : strEndsWith "broken.js" ".js" = true := rfl
    simp [listScripts, List.filterMap_cons, loadEntry, ha, hb, hc]

/-- C9 witness: the three-unit scenario of the spec instantiated with
concrete metadata; only the two cleanly loading units are listed. -/
theorem listScripts_partial_failure_cases :
    listScripts
        [⟨"sample-test.js", .ok ⟨some "Sample Test", some "A sample test", some []⟩⟩,
         ⟨"broken.js", .error "Unexpected token"⟩,
         ⟨"build-check.js", .ok ⟨some "Build Check", none, none⟩⟩] =
      [mkDef "sample-test.js" ⟨some "Sample Test", some "A sample test", some []⟩,
       mkDef "build-check.js" ⟨some "Build Check", none, none⟩] :=
  (listScripts_partial_failure []).2.2 "sample-test.js" "build-check.js"
    ⟨some "Sample Test", some "A sample test", some []⟩
    ⟨some "Build Check", none, none⟩ "Unexpected token" rfl rfl

/-! ## C10: settings token round trip -/

/-- C10: with the crypto-js cipher abstracted as an inverse pair
`enc`/`dec` (`decrypt` undoes `encrypt`), saving settings with a non-empty
API token and reading them back returns the settings unchanged, while the
persisted record stores `enc` of the token — and, whenever the cipher
output differs from the plaintext (as AES ciphertext does), never the
plaintext itself. -/
theorem settings_token_roundtrip (enc dec : String → String) (s : Settings)
    (hinv : ∀ t, dec (enc t) = t) (hne : s.apiToken ≠ "")
    (hencne : enc s.apiToken ≠ "") (hdiff : enc s.apiToken ≠ s.apiToken) :
    getSettings dec (some (saveSettings enc s)) = s ∧
    (saveSettings enc s).apiToken = enc s.apiToken ∧
    (saveSettings enc s).apiToken ≠ s.apiToken := by
  obtain ⟨u, n, t, c⟩ := s
  simp only at hne hencne hdiff
  simp [saveSettings, getSettings, hne, hencne, hinv, hdiff]

/-- C10 witness: a concrete reversible cipher (prepend a character /
drop it) and concrete settings; the round trip preserves the token and the
stored token is the ciphertext, not the plaintext. -/
theorem settings_token_roundtrip_cases :
    getSettings (fun t => String.mk t.data.tail)
        (some (saveSettings (fun t => String.mk ('k' :: t.data))
            { jiraUrl := "https://jira.example.com", username := "bot",
              apiToken := "secret-token", configured := true })) =
      { jiraUrl := "https://jira.example.com", username := "bot",
        apiToken := "secret-token", configured := true } ∧
    (saveSettings (fun t => String.mk ('k' :: t.data))
        { jiraUrl := "https://jira.example.com", username := "bot",
          apiToken := "secret-token", configured := true }).apiToken =
      (fun t => String.mk ('k' :: t.data)) "secret-token" ∧
    (saveSettings (fun t => String.mk ('k' :: t.data))
        { jiraUrl := "https://jira.example.com", username := "bot",
          apiToken := "secret-token", configured := true }).apiToken ≠
      "secret-token" :=
  settings_token_roundtrip (fun t => String.mk ('k' :: t.data))
    (fun t => String.mk t.data.tail)
    { jiraUrl := "https://jira.example.com", username := "bot",
      apiToken := "secret-token", configured := true }
    (fun t => rfl) (by decide) (by decide) (by decide)

/-! ## C5: idempotent Fail-comment reconciliation -/

/-- A singleton filter result is a member satisfying the predicate. -/
theorem mem_of_filter_singleton {α : Type} (p : α → Bool) (l : List α) (c : α)
    (h : l.filter p = [c]) : c ∈ l ∧ p c = true := by
  have hc : c ∈ l.filter p := by
    rw [h]
    exact List.mem_singleton_self c
  exact ⟨List.mem_of_mem_filter hc, List.of_mem_filter hc⟩

/-- When the filter result is the singleton `[c]`, every member satisfying
the predicate is `c` itself. -/
theorem eq_of_filter_singleton {α : Type} (p : α → Bool) (l : List α) (c x : α)
    (h : l.filter p = [c]) (hx : x ∈ l) (hpx : p x = true) : x = c := by
  have hmem : x ∈ l.filter p := List.mem_filter.mpr ⟨hx, hpx⟩
  rw [h] at hmem
  exact List.mem_singleton.mp hmem

/-- With no tagged comment present, one Fail-branch run appends a fresh
tagged comment under the next identifier. -/
theorem failRun_of_find_none (tag r : String) (st : RemoteIssue)
    (h : st.comments.find? (taggedBy tag) = none) :
    failRun tag r st = { st with
      comments := st.comments ++ [⟨st.nextId, tag ++ " " ++ r⟩]
      nextId := st.nextId + 1 } := by
  simp [failRun, failBranch, failAttempt, getCommentsOp, noFail, h, addCommentOp]

/-- With a first tagged comment `c` present, one Fail-branch run rewrites
the body of the comment with identifier `c.id` in place. -/
theorem failRun_of_find_some (tag r : String) (st : RemoteIssue) (c : Comment)
    (h : st.comments.find? (taggedBy tag) = some c) :
    failRun tag r st = { st with
      comments := st.comments.map
        (fun x => if x.id = c.id then { x with body := tag ++ " " ++ r } else x) } := by
  simp [failRun, failBranch, failAttempt, getCommentsOp, noFail, h, updateCommentOp]

/-- Updating the body of the unique tagged comment keeps exactly one tagged
comment, now carrying the new body. -/
theorem filter_map_update (tag r : String) (l : List Comment) (c : Comment) :
    (∀ x ∈ l, x.id = c.id → x = c) →
    l.filter (taggedBy tag) = [c] →
    (l.map (fun x => if x.id = c.id then { x with body := tag ++ " " ++ r } else x)).filter
      (taggedBy tag) = [{ c with body := tag ++ " " ++ r }] := by
  induction l with
  | nil =>
    intro _ h
    simp at h
  | cons a l ih =>
    intro huniq h
    by_cases hpa : taggedBy tag a = true
    · rw [List.filter_cons_of_pos hpa] at h
      obtain rfl : a = c := List.head_eq_of_cons_eq h
      have hrest : l.filter (taggedBy tag) = [] := List.tail_eq_of_cons_eq h
      rw [List.map_cons, if_pos rfl]
      have htagnew : taggedBy tag { a with body := tag ++ " " ++ r } = true :=
        strStartsWith_tag_space tag r
      rw [List.filter_cons_of_pos htagnew]
      have hnil : (l.map
          (fun x => if x.id = a.id then { x with body := tag ++ " " ++ r } else x)).filter
          (taggedBy tag) = [] := by
        rw [List.filter_eq_nil_iff]
        intro y hy
        obtain ⟨x, hx, rfl⟩ := List.mem_map.mp hy
        have hxid : ¬ x.id = a.id := by
          intro he
          obtain rfl : x = a := huniq x (List.mem_cons_of_mem _ hx) he
          have hmem : x ∈ l.filter (taggedBy tag) := List.mem_filter.mpr ⟨hx, hpa⟩
          rw [hrest] at hmem
          exact absurd hmem (List.not_mem_nil x)
        rw [if_neg hxid]
        intro htag
        have hmem : x ∈ l.filter (taggedBy tag) := List.mem_filter.mpr ⟨hx, htag⟩
        rw [hrest] at hmem
        exact absurd hmem (List.not_mem_nil x)
      rw [hnil]
    · rw [List.filter_cons_of_neg hpa] at h
      have hctag : taggedBy tag c = true := (mem_of_filter_singleton _ _ _ h).2
      have haid : ¬ a.id = c.id := by
        intro he
        obtain rfl : a = c := huniq a (List.mem_cons_self a l) he
        exact hpa hctag
      rw [List.map_cons, if_neg haid, List.filter_cons_of_neg hpa]
      exact ih (fun x hx he => huniq x (List.mem_cons_of_mem _ hx) he) h

/-- One Fail-branch run from a state with at most one tagged comment: the
state stays well-formed and afterwards exactly one tagged comment exists,
whose body is the tag followed by this run's reason. -/
theorem failRun_step (tag r : String) (st : RemoteIssue) (hwf : st.wf)
    (h : st.comments.filter (taggedBy tag) = [] ∨
      ∃ c, st.comments.filter (taggedBy tag) = [c]) :
    (failRun tag r st).wf ∧
    ((failRun tag r st).comments.filter (taggedBy tag)).map Comment.body =
      [tag ++ " " ++ r] := by
  rcases h with h | ⟨c, h⟩
  · have hfind : st.comments.find? (taggedBy tag) = none := by
      rw [List.find?_eq_none]
      intro x hx hpx
      have hmem : x ∈ st.comments.filter (taggedBy tag) := List.mem_filter.mpr ⟨hx, hpx⟩
      rw [h] at hmem
      exact absurd hmem (List.not_mem_nil x)
    rw [failRun_of_find_none tag r st hfind]
    refine ⟨⟨?_, ?_⟩, ?_⟩
    · rw [List.map_append]
      refine List.Nodup.append hwf.1 (List.nodup_singleton _) ?_
      intro a ha hb
      rw [List.map_singleton, List.mem_singleton] at hb
      obtain ⟨y, hy, rfl⟩ := List.mem_map.mp ha
      have hb2 : y.id = st.nextId := hb
      have hlt := hwf.2 y hy
      omega
    · intro x hx
      rcases List.mem_append.mp hx with hx | hx
      · exact Nat.lt_succ_of_lt (hwf.2 x hx)
      · rw [List.mem_singleton] at hx
        subst hx
        exact Nat.lt_succ_self _
    · rw [List.filter_append, h, List.nil_append]
      have htagnew : taggedBy tag (⟨st.nextId, tag ++ " " ++ r⟩ : Comment) = true :=
        strStartsWith_tag_space tag r
      simp [htagnew]
  · have hfind := find?_of_filter_singleton _ _ _ h
    obtain ⟨hcmem, hctag⟩ := mem_of_filter_singleton _ _ _ h
    have huniq : ∀ x ∈ st.comments, x.id = c.id → x = c := by
      intro x hx he
      exact List.inj_on_of_nodup_map hwf.1 hx hcmem he
    rw [failRun_of_find_some tag r st c hfind]
    refine ⟨⟨?_, ?_⟩, ?_⟩
    · have hids : (st.comments.map
          (fun x => if x.id = c.id then { x with body := tag ++ " " ++ r } else x)).map
          Comment.id = st.comments.map Comment.id := by
        rw [List.map_map]
        apply List.map_congr_left
        intro x hx
        by_cases hxid : x.id = c.id <;> simp [Function.comp, hxid]
      rw [hids]
      exact hwf.1
    · intro x hx
      obtain ⟨y, hy, rfl⟩ := List.mem_map.mp hx
      have hbound := hwf.2 y hy
      by_cases hyid : y.id = c.id <;> simpa [hyid] using hbound
    · rw [filter_map_update tag r _ c huniq h]
      rfl

/-- Folding Fail-branch runs preserves well-formedness and the at-most-one
tagged comment invariant. -/
theorem foldl_failRun_inv (tag : String) (rs : List String) (st : RemoteIssue)
    (hwf : st.wf)
    (h : st.comments.filter (taggedBy tag) = [] ∨
      ∃ c, st.comments.filter (taggedBy tag) = [c]) :
    (rs.foldl (fun s r => failRun tag r s) st).wf ∧
    ((rs.foldl (fun s r => failRun tag r s) st).comments.filter (taggedBy tag) = [] ∨
      ∃ c, (rs.foldl (fun s r => failRun tag r s) st).comments.filter
        (taggedBy tag) = [c]) := by
  induction rs generalizing st with
  | nil => exact ⟨hwf, h⟩
  | cons r rs ih =>
    obtain ⟨hwf2, hbody⟩ := failRun_step tag r st hwf h
    have hone : ∃ c2, (failRun tag r st).comments.filter (taggedBy tag) = [c2] := by
      have hlen := congrArg List.length hbody
      rw [List.length_map] at hlen
      exact List.length_eq_one.mp hlen
    simpa using ih (failRun tag r st) hwf2 (Or.inr hone)

/-- C5: starting from a well-formed issue with no tagged comment, any
non-empty sequence of Fail-branch resolutions with the same tag leaves
exactly one tagged comment on the issue, and its body is the tag followed
by the latest reason: repeated Fail resolutions edit the tagged comment in
place instead of appending a second one. -/
theorem fail_comment_reconciliation (tag : String) (reasons : List String)
    (st : RemoteIssue) (hne : reasons ≠ []) (hwf : st.wf)
    (h0 : st.comments.filter (taggedBy tag) = []) :
    ((reasons.foldl (fun s r => failRun tag r s) st).comments.filter
      (taggedBy tag)).map Comment.body = [tag ++ " " ++ reasons.getLast hne] := by
  obtain ⟨init, last, heq⟩ : ∃ init last, reasons = init ++ [last] :=
    ⟨reasons.dropLast, reasons.getLast hne, (List.dropLast_append_getLast hne).symm⟩
  subst heq
  rw [List.foldl_append]
  simp only [List.foldl_cons, List.foldl_nil]
  obtain ⟨hwfm, hinv⟩ := foldl_failRun_inv tag init st hwf (Or.inl h0)
  have hstep := (failRun_step tag last _ hwfm hinv).2
  rw [show (init ++ [last]).getLast hne = last from @List.getLast_concat _ last init]
  exact hstep

/-- C5 witness: two consecutive Fail resolutions (`timeout`, then
`still failing`) on an issue that starts with one unrelated comment: one
tagged comment remains, carrying the latest reason. -/
theorem fail_comment_reconciliation_cases :
    ((["timeout", "still failing"].foldl
        (fun s r => failRun "[Verification]" r s)
        { comments := [⟨0, "unrelated comment"⟩], nextId := 1, transitions := [],
          appliedTransitions := [] }).comments.filter
      (taggedBy "[Verification]")).map Comment.body =
      ["[Verification] still failing"] := by
  have h := fail_comment_reconciliation "[Verification]" ["timeout", "still failing"]
    { comments := [⟨0, "unrelated comment"⟩], nextId := 1, transitions := [],
      appliedTransitions := [] } (by decide) ⟨by decide, by decide⟩ (by decide)
  exact h
